import Mathlib

/-!
Shallow embedding of the protobuf-to-JSON translating ASGI middleware of
src/fastapi_better_mixed_server_asgi.py, together with the /classroom handler
it fronts. Byte strings are modelled as lists of natural numbers (one entry
per byte). The external message codec library (betterproto plus the json
module) is not part of the repository; it is modelled from the spec as a pair
of explicit, executable encodings with structural round-trip, one for the
binary wire format and one for the JSON text format.
-/

/-- Code points of a Lean string, used to build concrete byte strings such as
header names and media types. -/
def strBytes (s : String) : List Nat := s.data.map Char.toNat

/-- ASCII lowercasing of a byte string, modelling Python bytes.lower(). -/
def lowerBytes (bs : List Nat) : List Nat :=
  bs.map (fun b => if 65 ≤ b ∧ b ≤ 90 then b + 32 else b)

/-- The byte string b"content-type". -/
def ctKey : List Nat := strBytes "content-type"

/-- The byte string b"content-length". -/
def clKey : List Nat := strBytes "content-length"

/-- The binary media type marker b"application/x-protobuf". -/
def protoCT : List Nat := strBytes "application/x-protobuf"

/-- The JSON media type marker b"application/json". -/
def jsonCT : List Nat := strBytes "application/json"

/-- Decimal digits of a natural number, modelling str(n).encode("utf-8"),
used for the content-length header value. -/
def decimalBytes (n : Nat) : List Nat := strBytes (toString n)

/-- Modelled from the spec: a student record of the external message schema
(betterproto_pb.school, generated code outside src/), with a name, a numeric
average grade and a date of birth, as described by the end-to-end scenario.
Numeric grades are modelled as rationals. -/
structure Student where
  name : List Nat
  avg_grade : ℚ
  dob : List Nat
deriving DecidableEq

/-- Modelled from the spec: the classroom message wrapping a list of student
records (betterproto_pb.school.Classroom). -/
structure Classroom where
  students : List Student
deriving DecidableEq

/-- Modelled from the spec: the stats message returned by the handler
(betterproto_pb.school.ClassStats) with a student count and a grade. -/
structure ClassStats where
  numstudents : Nat
  grade : ℚ
deriving DecidableEq

/-- Zigzag encoding of an integer into a natural number. -/
def zigzag (i : Int) : Nat :=
  if 0 ≤ i then 2 * i.toNat else 2 * (-i).toNat - 1

/-- Inverse of the zigzag encoding. -/
def unzigzag (n : Nat) : Int :=
  if n % 2 = 0 then ((n / 2 : Nat) : Int) else -(((n + 1) / 2 : Nat) : Int)

/-- Length-prefixed encoding of a raw byte string field. -/
def encStr (bs : List Nat) : List Nat := bs.length :: bs

/-- Decoder for a length-prefixed byte string field; returns the field and
the remaining input, or none on truncated input. -/
def decStr : List Nat → Option (List Nat × List Nat)
  | [] => none
  | n :: rest =>
    if n ≤ rest.length then some (rest.take n, rest.drop n) else none

/-- Encoding of a rational field as a zigzagged numerator and a denominator. -/
def encRat (q : ℚ) : List Nat := [zigzag q.num, q.den]

/-- Decoder for a rational field. -/
def decRat : List Nat → Option (ℚ × List Nat)
  | a :: b :: rest => some (mkRat (unzigzag a) b, rest)
  | _ => none

/-- Encoding of one student record: name, average grade, date of birth. -/
def encStudent (s : Student) : List Nat :=
  encStr s.name ++ (encRat s.avg_grade ++ encStr s.dob)

/-- Decoder for one student record. -/
def decStudent (bs : List Nat) : Option (Student × List Nat) :=
  match decStr bs with
  | none => none
  | some (nm, r1) =>
    match decRat r1 with
    | none => none
    | some (g, r2) =>
      match decStr r2 with
      | none => none
      | some (db, r3) => some (⟨nm, g, db⟩, r3)

/-- Concatenated encoding of a list of student records. -/
def encStudents : List Student → List Nat
  | [] => []
  | s :: rest => encStudent s ++ encStudents rest

/-- Decoder for a known number of consecutive student records. -/
def decStudents : Nat → List Nat → Option (List Student × List Nat)
  | 0, bs => some ([], bs)
  | n + 1, bs =>
    match decStudent bs with
    | none => none
    | some (s, r) =>
      match decStudents n r with
      | none => none
      | some (ss, r2) => some (s :: ss, r2)

/-- Encoding of a classroom message: student count followed by the records. -/
def encClassroom (c : Classroom) : List Nat :=
  c.students.length :: encStudents c.students

/-- Decoder for a classroom message. -/
def decClassroom (bs : List Nat) : Option (Classroom × List Nat) :=
  match bs with
  | [] => none
  | n :: rest =>
    match decStudents n rest with
    | none => none
    | some (ss, r) => some (⟨ss⟩, r)

/-- Encoding of a stats message: count, zigzagged grade numerator, grade
denominator. -/
def encStats (s : ClassStats) : List Nat :=
  [s.numstudents, zigzag s.grade.num, s.grade.den]

/-- Decoder for a stats message. -/
def decStats : List Nat → Option (ClassStats × List Nat)
  | n :: a :: b :: rest => some (⟨n, mkRat (unzigzag a) b⟩, rest)
  | _ => none

/-- The two message types registered for the /classroom route: its input
type Classroom and its output type ClassStats. -/
inductive MsgType
  | classroomT
  | statsT
deriving DecidableEq

/-- A message instance of one of the registered types. -/
inductive MsgVal
  | vClassroom (c : Classroom)
  | vStats (s : ClassStats)
deriving DecidableEq

/-- Untagged payload encoding of a message instance. -/
def encVal : MsgVal → List Nat
  | .vClassroom c => encClassroom c
  | .vStats s => encStats s

/-- Modelled from the spec: the external binary codec SerializeToString. A
leading 0 tag distinguishes the binary wire format from the JSON format. -/
def binEncode (v : MsgVal) : List Nat := 0 :: encVal v

/-- Modelled from the spec: the external JSON codec (to_dict plus
json.dumps). A leading 1 tag distinguishes the JSON format. -/
def jsonEncode (v : MsgVal) : List Nat := 1 :: encVal v

/-- Untagged payload decoding at a given message type; the whole input must
be consumed, and malformed input fails explicitly with none. -/
def decValAs (t : MsgType) (bs : List Nat) : Option MsgVal :=
  match t with
  | .classroomT =>
    match decClassroom bs with
    | some (c, []) => some (.vClassroom c)
    | _ => none
  | .statsT =>
    match decStats bs with
    | some (s, []) => some (.vStats s)
    | _ => none

/-- Modelled from the spec: the external binary decoder FromString; fails
explicitly with none on malformed input. -/
def binDecodeAs (t : MsgType) (bs : List Nat) : Option MsgVal :=
  match bs with
  | 0 :: rest => decValAs t rest
  | _ => none

/-- Modelled from the spec: the external JSON decoder (json.loads plus the
message constructor); fails explicitly with none on malformed input. -/
def jsonDecodeAs (t : MsgType) (bs : List Nat) : Option MsgVal :=
  match bs with
  | 1 :: rest => decValAs t rest
  | _ => none

/-- An http.request event as returned by the ASGI receive callable: a body
chunk and a more-to-come flag. -/
structure ReceiveMsg where
  body : List Nat
  more_body : Bool
deriving DecidableEq

/-- An event passed to the ASGI send callable: either an
http.response.start event carrying status and headers, or an
http.response.body event carrying a chunk and a more-to-come flag. -/
inductive SendMsg
  | start (status : Nat) (headers : List (List Nat × List Nat))
  | body (body : List Nat) (more_body : Bool)
deriving DecidableEq

/-- The parts of the ASGI scope read by the middleware: scope type, request
path, and the header list of key and value byte strings. -/
structure ScopeM where
  type : String
  path : String
  headers : List (List Nat × List Nat)
deriving DecidableEq

instance {e a : Type} [DecidableEq e] [DecidableEq a] : DecidableEq (Except e a) := fun x y =>
  match x, y with
  | .ok v, .ok w => if h : v = w then isTrue (by rw [h]) else isFalse (by simp [h])
  | .error v, .error w => if h : v = w then isTrue (by rw [h]) else isFalse (by simp [h])
  | .ok _, .error _ => isFalse (by simp)
  | .error _, .ok _ => isFalse (by simp)

/-- Header lookup with the semantics of dict(scope["headers"]).get(key): an
exact byte match on the key, where the last occurrence wins. -/
def headerLast (hs : List (List Nat × List Nat)) (k : List Nat) : Option (List Nat) :=
  match hs with
  | [] => none
  | kv :: rest =>
    match headerLast rest k with
    | some v => some v
    | none => if kv.1 = k then some kv.2 else none

/-- The content negotiation gate, lines 79 to 82 of the source: the request
is treated as protobuf iff the scope type is http, the header list is
nonempty, and the content-type header value is truthy and equal, byte for
byte, to b"application/x-protobuf". -/
def classifyBinary (scope : ScopeM) : Bool :=
  (scope.type == "http") && !scope.headers.isEmpty &&
    (match headerLast scope.headers ctKey with
     | some v => !v.isEmpty && (v == protoCT)
     | none => false)

/-- The request drain loop, lines 85 to 90 of the source: concatenate body
chunks in arrival order until a message with more_body false; none models a
stream that ends without a final chunk (the loop would keep awaiting). -/
def drainReq : List ReceiveMsg → Option (List Nat)
  | [] => none
  | m :: rest =>
    if m.more_body then (drainReq rest).map (fun b => m.body ++ b) else some m.body

/-- One registered route: its path, and the input and output message types
recovered from the endpoint type hints (none when a hint is missing). -/
structure RouteEntry where
  path : String
  input : Option MsgType
  output : Option MsgType
deriving DecidableEq

/-- Route lookup, lines 92 to 97 of the source: the first route whose path
equals the scope path. -/
def findRoute (routes : List RouteEntry) (p : String) : Option RouteEntry :=
  routes.find? (fun r => r.path == p)

/-- How a middleware run can abort. httpError models an HTTPException raised
by the middleware itself; requestDecode models the uncaught exception raised
by FromString on a malformed body (line 111); responseDecode models the
uncaught exception raised by json.loads or the message constructor in
new_send (lines 50 and 51); missingStart models the AttributeError of
reading self.start_message before any http.response.start event;
incompleteStream models a request stream that never finishes. -/
inductive MWErr
  | httpError (status : Nat) (detail : String)
  | requestDecode
  | responseDecode
  | missingStart
  | incompleteStream
deriving DecidableEq

/-- Whether an abort carries a client error status (4xx). The uncaught
exceptions carry no status at all. -/
def isClientError : MWErr → Bool
  | .httpError s _ => decide (400 ≤ s ∧ s < 500)
  | _ => false

/-- The header rewrite of new_send, lines 54 to 65 of the source: drop every
captured header whose lowercased key is content-type or content-length, then
append the fresh content-length (decimal byte length of the translated body)
and the binary content-type. -/
def rewriteHeaders (h : List (List Nat × List Nat)) (pb : List Nat) :
    List (List Nat × List Nat) :=
  (h.filter (fun kv => !(lowerBytes kv.1 == ctKey) && !(lowerBytes kv.1 == clKey))) ++
    [(clKey, decimalBytes pb.length), (ctKey, protoCT)]

/-- One step of new_send on the protobuf path, lines 42 to 77 of the source.
The state is the stored self.start_message. An http.response.start event is
stored and nothing is forwarded. An http.response.body event is translated
immediately from that single chunk, whatever its more_body flag says: the
chunk is JSON-decoded at the output type, re-encoded with the binary codec,
and a rewritten start event followed by one final body event is emitted. -/
def newSendStep (outT : MsgType) (st : Option (Nat × List (List Nat × List Nat)))
    (m : SendMsg) :
    Except MWErr (Option (Nat × List (List Nat × List Nat)) × List SendMsg) :=
  match m with
  | .start s h => .ok (some (s, h), [])
  | .body b _ =>
    match st with
    | none => .error .missingStart
    | some (s, h) =>
      match jsonDecodeAs outT b with
      | none => .error .responseDecode
      | some v =>
        .ok (some (s, h),
          [.start s (rewriteHeaders h (binEncode v)), .body (binEncode v) false])

/-- Run new_send over a list of downstream events from a given stored start
state, concatenating the forwarded events. -/
def runNewSendFrom (outT : MsgType) (st : Option (Nat × List (List Nat × List Nat))) :
    List SendMsg → Except MWErr (List SendMsg)
  | [] => .ok []
  | m :: rest =>
    match newSendStep outT st m with
    | .error e => .error e
    | .ok (st2, out) =>
      match runNewSendFrom outT st2 rest with
      | .error e => .error e
      | .ok out2 => .ok (out ++ out2)

/-- Run new_send over a list of downstream events with no stored start. -/
def runNewSend (outT : MsgType) (msgs : List SendMsg) : Except MWErr (List SendMsg) :=
  runNewSendFrom outT none msgs

/-- The scope header update of lines 116 to 118 of the source: every entry
whose key is exactly b"content-type" has its value replaced by
b"application/json"; all other entries are kept unchanged. -/
def jsonifyScope (scope : ScopeM) : ScopeM :=
  { scope with
    headers := scope.headers.map (fun kv => if kv.1 == ctKey then (kv.1, jsonCT) else kv) }

/-- A downstream ASGI application, modelled denotationally: from the scope
and the drained view of its receive stream to the list of events it sends. -/
def AppModel : Type := ScopeM → List ReceiveMsg → List SendMsg

/-- The new_receive callable, lines 33 to 40 of the source: on the protobuf
path every pull returns the complete JSON body with more_body false; on the
pass-through path pulls go to the original receive callable. -/
def newReceive (is_protobuf : Bool) (json_body : List Nat) (orig : Nat → ReceiveMsg)
    (n : Nat) : ReceiveMsg :=
  if is_protobuf then ⟨json_body, false⟩ else orig n

/-- Protocol-respecting drain of a pull source: pull at successive indices,
concatenating bodies, until a pull reports more_body false; the first
argument bounds the number of pulls. -/
def drainPulls (src : Nat → ReceiveMsg) : Nat → Nat → Option (List Nat)
  | 0, _ => none
  | fuel + 1, i =>
    if (src i).more_body then
      (drainPulls src fuel (i + 1)).map (fun b => (src i).body ++ b)
    else some (src i).body

/-- The middleware call, lines 26 to 121 of the source. On the protobuf path
it drains the request, looks up the route, checks the output and input type
hints, binary-decodes the body (aborting like the unguarded FromString on
malformed input), re-encodes it as JSON, replaces the content-type header of
the scope, hands the downstream app the rewritten scope and a single
complete JSON chunk, and filters the events the app sends through new_send.
On the pass-through path scope, stream and events flow through unchanged. -/
def middlewareCall (routes : List RouteEntry) (app : AppModel) (scope : ScopeM)
    (reqMsgs : List ReceiveMsg) : Except MWErr (List SendMsg) :=
  if classifyBinary scope then
    match drainReq reqMsgs with
    | none => .error .incompleteStream
    | some body =>
      match findRoute routes scope.path with
      | none => .error (.httpError 404 "Endpoint not found")
      | some r =>
        match r.output with
        | none => .error (.httpError 400 "Protobuf message type not found in endpoint signature")
        | some outT =>
          match r.input with
          | none => .error (.httpError 400 "Protobuf message type not found in endpoint signature")
          | some inT =>
            match binDecodeAs inT body with
            | none => .error .requestDecode
            | some v =>
              runNewSend outT (app (jsonifyScope scope) [⟨jsonEncode v, false⟩])
  else .ok (app scope reqMsgs)

/-- The Python error raised by the handler body. -/
inductive PyErr
  | zeroDivisionError
deriving DecidableEq

/-- Sum of the average grades of a list of students, modelling the generator
sum of line 133 of the source. -/
def sumGrades (ss : List Student) : ℚ := (ss.map (fun s => s.avg_grade)).sum

/-- The /classroom handler, lines 128 to 134 of the source. Python evaluates
sum of grades divided by len(classroom.students); the division raises
ZeroDivisionError when the student list is empty, modelled as an explicit
guard. -/
def summarize_classroom (classroom : Classroom) : Except PyErr ClassStats :=
  if classroom.students.length = 0 then .error .zeroDivisionError
  else
    .ok ⟨classroom.students.length,
      sumGrades classroom.students / (classroom.students.length : ℚ)⟩

/-- Modelled from the spec: the downstream JSON-only application (the
FastAPI server with the /classroom route, an external collaborator below
the middleware). It drains the request stream, JSON-decodes a classroom,
runs the handler, and sends one start event followed by one final body
event carrying the JSON-encoded stats; decode failures produce a 422
validation response and handler errors a 500 response. -/
def appClassroom : AppModel := fun _ msgs =>
  match drainReq msgs with
  | none => []
  | some b =>
    match jsonDecodeAs .classroomT b with
    | none => [.start 422 [(ctKey, jsonCT)], .body (strBytes "validation error") false]
    | some v =>
      match v with
      | .vStats _ => []
      | .vClassroom c =>
        match summarize_classroom c with
        | .error _ => [.start 500 [], .body (strBytes "Internal Server Error") false]
        | .ok st =>
          [.start 200 [(ctKey, jsonCT), (clKey, decimalBytes (jsonEncode (.vStats st)).length)],
           .body (jsonEncode (.vStats st)) false]

/-- The route table of the application: POST /classroom with input type
Classroom and output type ClassStats. -/
def classroomRoutes : List RouteEntry :=
  [⟨"/classroom", some .classroomT, some .statsT⟩]

/-- A binary-path request scope for the /classroom route. -/
def protoScope : ScopeM :=
  ⟨"http", "/classroom", [(ctKey, protoCT)]⟩

/-- Two concurrently handled requests share the single middleware instance
and hence the single self.start_message attribute (declared at line 20 of
the source and written at line 46). This runs new_send steps of an
interleaved event sequence, each event tagged with the request it belongs
to, against that one shared stored start state; forwarded events are tagged
with the request whose new_send call emitted them. -/
def runSharedFrom (outT : MsgType) (st : Option (Nat × List (List Nat × List Nat))) :
    List (Bool × SendMsg) → Except MWErr (List (Bool × SendMsg))
  | [] => .ok []
  | rm :: rest =>
    match newSendStep outT st rm.2 with
    | .error e => .error e
    | .ok (st2, out) =>
      match runSharedFrom outT st2 rest with
      | .error e => .error e
      | .ok out2 => .ok (out.map (fun x => (rm.1, x)) ++ out2)

/-- The events emitted on behalf of one of the two interleaved requests. -/
def forRequest (rid : Bool) (out : List (Bool × SendMsg)) : List SendMsg :=
  (out.filter (fun x => x.1 == rid)).map (fun x => x.2)

/-! Round-trip lemmas for the modelled codecs. -/

theorem unzigzag_zigzag (i : Int) : unzigzag (zigzag i) = i := by
  by_cases h : 0 ≤ i
  · simp only [zigzag, unzigzag, if_pos h]
    split
    · omega
    · omega
  · simp only [zigzag, unzigzag, if_neg h]
    split
    · omega
    · omega

@[simp] theorem decStr_encStr (bs rest : List Nat) :
    decStr (encStr bs ++ rest) = some (bs, rest) := by
  simp only [encStr, List.cons_append, decStr]
  rw [if_pos]
  · rw [List.take_left, List.drop_left]
  · simp

@[simp] theorem decRat_encRat (q : ℚ) (rest : List Nat) :
    decRat (encRat q ++ rest) = some (q, rest) := by
  simp only [encRat, List.cons_append, List.nil_append, decRat,
    unzigzag_zigzag, Rat.mkRat_self]

@[simp] theorem decStudent_encStudent (s : Student) (rest : List Nat) :
    decStudent (encStudent s ++ rest) = some (s, rest) := by
  simp only [encStudent, List.append_assoc, decStudent, decStr_encStr, decRat_encRat]

@[simp] theorem decStudents_encStudents (ss : List Student) (rest : List Nat) :
    decStudents ss.length (encStudents ss ++ rest) = some (ss, rest) := by
  induction ss generalizing rest with
  | nil => simp [encStudents, decStudents]
  | cons s tail ih =>
    simp only [List.length_cons, encStudents, List.append_assoc, decStudents,
      decStudent_encStudent, ih]

@[simp] theorem decClassroom_encClassroom (c : Classroom) :
    decClassroom (encClassroom c) = some (c, []) := by
  have h := decStudents_encStudents c.students []
  simp only [List.append_nil] at h
  simp only [encClassroom, decClassroom, h]

@[simp] theorem decStats_encStats (s : ClassStats) :
    decStats (encStats s) = some (s, []) := by
  simp only [encStats, decStats, unzigzag_zigzag, Rat.mkRat_self]

@[simp] theorem binDecodeAs_classroom (c : Classroom) :
    binDecodeAs .classroomT (binEncode (.vClassroom c)) = some (.vClassroom c) := by
  simp [binEncode, binDecodeAs, encVal, decValAs]

@[simp] theorem binDecodeAs_stats (s : ClassStats) :
    binDecodeAs .statsT (binEncode (.vStats s)) = some (.vStats s) := by
  simp [binEncode, binDecodeAs, encVal, decValAs]

@[simp] theorem jsonDecodeAs_classroom (c : Classroom) :
    jsonDecodeAs .classroomT (jsonEncode (.vClassroom c)) = some (.vClassroom c) := by
  simp [jsonEncode, jsonDecodeAs, encVal, decValAs]

@[simp] theorem jsonDecodeAs_stats (s : ClassStats) :
    jsonDecodeAs .statsT (jsonEncode (.vStats s)) = some (.vStats s) := by
  simp [jsonEncode, jsonDecodeAs, encVal, decValAs]

/-! Claim theorems. -/

/-- C7 (amended): the content negotiation gate classifies a request as
binary iff the scope is an http scope with a nonempty header list whose
content-type entry (last occurrence, exact key) has a value equal byte for
byte, case-sensitively, to the binary media type; any other value, a case
variant included, or absence of the header classifies it as pass-through. -/
theorem c7_classify_exact_match (scope : ScopeM) :
    classifyBinary scope = true ↔
      scope.type = "http" ∧ scope.headers ≠ [] ∧
        headerLast scope.headers ctKey = some protoCT := by
  unfold classifyBinary
  cases h : headerLast scope.headers ctKey with
  | none => simp [h]
  | some v =>
    simp only [h, Bool.and_eq_true, beq_iff_eq, Bool.not_eq_true',
      List.isEmpty_eq_false, Option.some.injEq]
    constructor
    · rintro ⟨⟨h1, h2⟩, _, h4⟩
      exact ⟨h1, h2, h4⟩
    · rintro ⟨h1, h2, h4⟩
      refine ⟨⟨h1, h2⟩, ?_, h4⟩
      subst h4
      decide

/-- C7 (counterexample): a request whose content-type value matches the
binary media type case-insensitively but not byte for byte is classified as
pass-through, refuting the case-insensitive matching stated by the claim. -/
theorem c7_counterexample :
    lowerBytes (strBytes "Application/X-Protobuf") = protoCT ∧
    classifyBinary ⟨"http", "/classroom",
      [(ctKey, strBytes "Application/X-Protobuf")]⟩ = false := by
  decide

/-- C3: a request whose content-type header is not the binary media type is
passed through unchanged: the middleware returns exactly the events of the
bare application, applied to the unchanged scope and the unchanged request
stream, and no transcoding step runs. -/
theorem c3_passthrough (routes : List RouteEntry) (app : AppModel) (scope : ScopeM)
    (msgs : List ReceiveMsg) (h : headerLast scope.headers ctKey ≠ some protoCT) :
    middlewareCall routes app scope msgs = .ok (app scope msgs) := by
  have hc : classifyBinary scope = false := by
    unfold classifyBinary
    cases hh : headerLast scope.headers ctKey with
    | none => simp
    | some v =>
      have hv : v ≠ protoCT := by
        intro e
        exact h (by rw [hh, e])
      simp [hv]
  simp [middlewareCall, hc]

/-- C3 (witness): pass-through at a concrete JSON request. -/
theorem c3_witness :
    headerLast (⟨"http", "/classroom", [(ctKey, jsonCT)]⟩ : ScopeM).headers ctKey ≠
        some protoCT ∧
    middlewareCall classroomRoutes appClassroom ⟨"http", "/classroom", [(ctKey, jsonCT)]⟩
        [⟨strBytes "x", false⟩] =
      .ok (appClassroom ⟨"http", "/classroom", [(ctKey, jsonCT)]⟩ [⟨strBytes "x", false⟩]) :=
  ⟨by decide, c3_passthrough _ _ _ _ (by decide)⟩

/-- C6: on the binary path, the emitted header list equals the captured
headers with every content-type and content-length entry removed (matched
case-insensitively on the key), in their original relative order, followed
by a content-length entry whose value is the decimal byte length of the
emitted binary body and a content-type entry carrying the binary media
type; the emitted body is exactly that binary encoding. -/
theorem c6_header_rewrite (outT : MsgType) (s : Nat) (h : List (List Nat × List Nat))
    (b : List Nat) (more : Bool) (v : MsgVal) (hdec : jsonDecodeAs outT b = some v) :
    newSendStep outT (some (s, h)) (.body b more) =
      .ok (some (s, h),
        [.start s
          ((h.filter (fun kv => !(lowerBytes kv.1 == ctKey) && !(lowerBytes kv.1 == clKey))) ++
            [(clKey, decimalBytes (binEncode v).length), (ctKey, protoCT)]),
         .body (binEncode v) false]) := by
  simp [newSendStep, hdec, rewriteHeaders]

/-- C6 (witness): header rewrite at a concrete captured header list holding
a custom header, an uppercase content-type entry and a response body. -/
theorem c6_witness :
    jsonDecodeAs .statsT (jsonEncode (.vStats ⟨2, 4⟩)) = some (.vStats ⟨2, 4⟩) ∧
    newSendStep .statsT
        (some (200, [(strBytes "Cache-Control", strBytes "no-store"),
          (strBytes "Content-Type", jsonCT)]))
        (.body (jsonEncode (.vStats ⟨2, 4⟩)) false) =
      .ok (some (200, [(strBytes "Cache-Control", strBytes "no-store"),
          (strBytes "Content-Type", jsonCT)]),
        [.start 200
          (([(strBytes "Cache-Control", strBytes "no-store"),
            (strBytes "Content-Type", jsonCT)].filter
              (fun kv => !(lowerBytes kv.1 == ctKey) && !(lowerBytes kv.1 == clKey))) ++
            [(clKey, decimalBytes (binEncode (.vStats ⟨2, 4⟩)).length), (ctKey, protoCT)]),
         .body (binEncode (.vStats ⟨2, 4⟩)) false]) :=
  ⟨by decide, c6_header_rewrite .statsT 200 _ _ false (.vStats ⟨2, 4⟩) (by decide)⟩

/-- C10: a classroom message with an empty students list is a well-formed
input message (it survives the binary round-trip), yet the handler aborts
with ZeroDivisionError instead of returning a stats message, because the
grade computation divides the grade sum by the number of students without a
guard. -/
theorem c10_empty_classroom_divzero (c : Classroom) (h : c.students = []) :
    summarize_classroom c = .error .zeroDivisionError ∧
    binDecodeAs .classroomT (binEncode (.vClassroom c)) = some (.vClassroom c) := by
  constructor
  · simp [summarize_classroom, h]
  · simp

/-- C10 (witness): the empty classroom. -/
theorem c10_witness :
    (⟨[]⟩ : Classroom).students = [] ∧
      (summarize_classroom ⟨[]⟩ = .error .zeroDivisionError ∧
       binDecodeAs .classroomT (binEncode (.vClassroom ⟨[]⟩)) = some (.vClassroom ⟨[]⟩)) :=
  ⟨rfl, c10_empty_classroom_divzero ⟨[]⟩ rfl⟩

/-- C4: a binary request to /classroom whose body is a truncated binary
encoding makes the pipeline abort with the unguarded FromString failure,
whatever downstream application is installed, so the downstream handler is
never invoked; the abort carries no 4xx client-error status, because the
exception of line 111 of the source is raised outside any handler that
could convert it into a client error response. -/
theorem c4_malformed_request (app : AppModel) :
    middlewareCall classroomRoutes app protoScope [⟨[0, 1], false⟩] =
        .error .requestDecode ∧
    isClientError .requestDecode = false := by
  constructor
  · rfl
  · rfl

/-- C2 (amended): the response transcoder does not buffer body chunks. When
the downstream handler emits its body in two body-chunk events, each chunk
that decodes on its own is translated and forwarded immediately and
independently, whatever its more-to-come flag says; the chunks are never
concatenated, and a full header plus body pair is emitted once per chunk. -/
theorem c2_per_chunk_translation (outT : MsgType) (s : Nat)
    (h : List (List Nat × List Nat)) (b1 b2 : List Nat) (m1 m2 : Bool) (v1 v2 : MsgVal)
    (h1 : jsonDecodeAs outT b1 = some v1) (h2 : jsonDecodeAs outT b2 = some v2) :
    runNewSend outT [.start s h, .body b1 m1, .body b2 m2] =
      .ok [.start s (rewriteHeaders h (binEncode v1)), .body (binEncode v1) false,
           .start s (rewriteHeaders h (binEncode v2)), .body (binEncode v2) false] := by
  simp [runNewSend, runNewSendFrom, newSendStep, h1, h2]

/-- C2 (counterexample): a downstream body delivered in two chunks, the
first flagged more-to-come. The transcoder forwards a translated header and
body pair computed from the first chunk alone before the final chunk has
arrived, and the concatenation of the two chunks is never what gets
decoded (here it does not even decode), refuting the buffering claim. -/
theorem c2_counterexample :
    runNewSend .statsT
        [.start 200 [], .body (jsonEncode (.vStats ⟨1, 5⟩)) true,
         .body (jsonEncode (.vStats ⟨2, 6⟩)) false] =
      .ok [.start 200 (rewriteHeaders [] (binEncode (.vStats ⟨1, 5⟩))),
           .body (binEncode (.vStats ⟨1, 5⟩)) false,
           .start 200 (rewriteHeaders [] (binEncode (.vStats ⟨2, 6⟩))),
           .body (binEncode (.vStats ⟨2, 6⟩)) false] ∧
    jsonDecodeAs .statsT
        (jsonEncode (.vStats ⟨1, 5⟩) ++ jsonEncode (.vStats ⟨2, 6⟩)) = none := by
  decide

/-- C2 (witness): per-chunk translation at concrete chunks. -/
theorem c2_witness :
    jsonDecodeAs .statsT (jsonEncode (.vStats ⟨7, 2⟩)) = some (.vStats ⟨7, 2⟩) ∧
    jsonDecodeAs .statsT (jsonEncode (.vStats ⟨8, 3⟩)) = some (.vStats ⟨8, 3⟩) ∧
    runNewSend .statsT
        [.start 201 [], .body (jsonEncode (.vStats ⟨7, 2⟩)) true,
         .body (jsonEncode (.vStats ⟨8, 3⟩)) false] =
      .ok [.start 201 (rewriteHeaders [] (binEncode (.vStats ⟨7, 2⟩))),
           .body (binEncode (.vStats ⟨7, 2⟩)) false,
           .start 201 (rewriteHeaders [] (binEncode (.vStats ⟨8, 3⟩))),
           .body (binEncode (.vStats ⟨8, 3⟩)) false] :=
  ⟨by decide, by decide,
    c2_per_chunk_translation .statsT 201 [] _ _ true false _ _ (by decide) (by decide)⟩

/-- C5 (amended): for a binary-path response whose downstream emits the
usual single final body-chunk event after its header-announcement event,
the middleware emits the rewritten header-announcement event exactly once
and strictly before exactly one body-chunk event, which carries the
complete binary payload with more-to-come false. -/
theorem c5_header_once_before_body (outT : MsgType) (s : Nat)
    (h : List (List Nat × List Nat)) (b : List Nat) (v : MsgVal)
    (hdec : jsonDecodeAs outT b = some v) :
    runNewSend outT [.start s h, .body b false] =
      .ok [.start s (rewriteHeaders h (binEncode v)), .body (binEncode v) false] := by
  simp [runNewSend, runNewSendFrom, newSendStep, hdec]

/-- C5 (witness): single-chunk downstream response at concrete values. -/
theorem c5_witness :
    jsonDecodeAs .statsT (jsonEncode (.vStats ⟨3, 7⟩)) = some (.vStats ⟨3, 7⟩) ∧
    runNewSend .statsT [.start 200 [], .body (jsonEncode (.vStats ⟨3, 7⟩)) false] =
      .ok [.start 200 (rewriteHeaders [] (binEncode (.vStats ⟨3, 7⟩))),
           .body (binEncode (.vStats ⟨3, 7⟩)) false] :=
  ⟨by decide, c5_header_once_before_body .statsT 200 [] _ _ (by decide)⟩

/-- C5 (counterexample): a binary-path response whose downstream emits two
body-chunk events. The middleware emits the header-announcement event
twice, not exactly once, and emits two body-chunk events, so no instance of
the claimed single header-before-single-body shape holds at this input. -/
theorem c5_counterexample :
    runNewSend .statsT
        [.start 200 [], .body (jsonEncode (.vStats ⟨4, 8⟩)) true,
         .body (jsonEncode (.vStats ⟨6, 2⟩)) false] =
      .ok [.start 200 (rewriteHeaders [] (binEncode (.vStats ⟨4, 8⟩))),
           .body (binEncode (.vStats ⟨4, 8⟩)) false,
           .start 200 (rewriteHeaders [] (binEncode (.vStats ⟨6, 2⟩))),
           .body (binEncode (.vStats ⟨6, 2⟩)) false] ∧
    ¬ ∃ st hs bd,
      runNewSend .statsT
          [.start 200 [], .body (jsonEncode (.vStats ⟨4, 8⟩)) true,
           .body (jsonEncode (.vStats ⟨6, 2⟩)) false] =
        .ok [.start st hs, .body bd false] := by
  have h1 : runNewSend .statsT
      [.start 200 [], .body (jsonEncode (.vStats ⟨4, 8⟩)) true,
       .body (jsonEncode (.vStats ⟨6, 2⟩)) false] =
    .ok [.start 200 (rewriteHeaders [] (binEncode (.vStats ⟨4, 8⟩))),
         .body (binEncode (.vStats ⟨4, 8⟩)) false,
         .start 200 (rewriteHeaders [] (binEncode (.vStats ⟨6, 2⟩))),
         .body (binEncode (.vStats ⟨6, 2⟩)) false] := by decide
  refine ⟨h1, ?_⟩
  rintro ⟨st, hs, bd, he⟩
  rw [h1] at he
  simp at he

/-- C9 (counterexample): two interleaved binary requests A and B. B stores
its header-announcement event in the shared self.start_message between the
header and body events of A, and the events then emitted on behalf of A
differ from the events A produces when run alone, refuting the claim that
one request is never affected by another interleaved request. -/
theorem c9_counterexample :
    (runSharedFrom .statsT none
        [(true, .start 200 [(strBytes "x-origin", strBytes "alpha")]),
         (false, .start 200 [(strBytes "x-origin", strBytes "beta")]),
         (true, .body (jsonEncode (.vStats ⟨5, 9⟩)) false)]).map (forRequest true) ≠
      runNewSend .statsT
        [.start 200 [(strBytes "x-origin", strBytes "alpha")],
         .body (jsonEncode (.vStats ⟨5, 9⟩)) false] := by
  decide

/-- C9 (amended): the body buffers and flags of a request are closure-local
and per-request, but the captured header-announcement event lives in the
single shared middleware attribute self.start_message, so an interleaved
request can overwrite it between the header and body events of another
request: here the translated response of A carries the headers B announced. -/
theorem c9_shared_start_message :
    runSharedFrom .statsT none
        [(true, .start 200 [(strBytes "x-origin", strBytes "alpha")]),
         (false, .start 200 [(strBytes "x-origin", strBytes "beta")]),
         (true, .body (jsonEncode (.vStats ⟨5, 9⟩)) false)] =
      .ok [(true, .start 200 (rewriteHeaders [(strBytes "x-origin", strBytes "beta")]
              (binEncode (.vStats ⟨5, 9⟩)))),
           (true, .body (binEncode (.vStats ⟨5, 9⟩)) false)] := by
  decide

/-- Replacing the value of every content-type entry moves headerLast along:
the lookup finds the same (last) occurrence, now carrying the JSON media
type. -/
theorem headerLast_jsonify (hs : List (List Nat × List Nat)) :
    headerLast (hs.map (fun kv => if kv.1 == ctKey then (kv.1, jsonCT) else kv)) ctKey =
      (headerLast hs ctKey).map (fun _ => jsonCT) := by
  induction hs with
  | nil => simp [headerLast]
  | cons kv rest ih =>
    simp only [List.map_cons, headerLast, ih]
    cases h : headerLast rest ctKey with
    | some v => simp
    | none =>
      by_cases hk : kv.1 = ctKey
      · simp [hk]
      · simp [hk]

/-- C8: for a binary request, however many chunks the original body arrived
in, the middleware hands the downstream application the scope with the
content-type header value replaced by the JSON media type, together with a
receive stream holding the complete JSON-encoded body as one single chunk
flagged more_body false; the installed new_receive source delivers that
complete body on its first pull and reports end-of-body there, so a
protocol-respecting drain finishes after exactly one pull. -/
theorem c8_single_shot_json (routes : List RouteEntry) (app : AppModel) (scope : ScopeM)
    (msgs : List ReceiveMsg) (rbody : List Nat) (r : RouteEntry) (inT outT : MsgType)
    (v : MsgVal) (orig : Nat → ReceiveMsg)
    (hclass : classifyBinary scope = true)
    (hdrain : drainReq msgs = some rbody)
    (hroute : findRoute routes scope.path = some r)
    (hout : r.output = some outT)
    (hin : r.input = some inT)
    (hdec : binDecodeAs inT rbody = some v) :
    middlewareCall routes app scope msgs =
        runNewSend outT (app (jsonifyScope scope) [⟨jsonEncode v, false⟩]) ∧
    headerLast (jsonifyScope scope).headers ctKey =
        (headerLast scope.headers ctKey).map (fun _ => jsonCT) ∧
    newReceive true (jsonEncode v) orig 0 = ⟨jsonEncode v, false⟩ ∧
    drainPulls (newReceive true (jsonEncode v) orig) 1 0 = some (jsonEncode v) := by
  refine ⟨?_, headerLast_jsonify scope.headers, rfl, rfl⟩
  simp [middlewareCall, hclass, hdrain, hroute, hout, hin, hdec]

/-- C8 (witness): a concrete binary request whose body arrives in two
chunks. -/
theorem c8_witness :
    classifyBinary protoScope = true ∧
    drainReq [⟨[0], true⟩, ⟨[0], false⟩] = some [0, 0] ∧
    findRoute classroomRoutes protoScope.path =
        some ⟨"/classroom", some .classroomT, some .statsT⟩ ∧
    (⟨"/classroom", some .classroomT, some .statsT⟩ : RouteEntry).output = some .statsT ∧
    (⟨"/classroom", some .classroomT, some .statsT⟩ : RouteEntry).input = some .classroomT ∧
    binDecodeAs .classroomT [0, 0] = some (.vClassroom ⟨[]⟩) ∧
    (middlewareCall classroomRoutes appClassroom protoScope [⟨[0], true⟩, ⟨[0], false⟩] =
        runNewSend .statsT (appClassroom (jsonifyScope protoScope)
          [⟨jsonEncode (.vClassroom ⟨[]⟩), false⟩]) ∧
      headerLast (jsonifyScope protoScope).headers ctKey =
        (headerLast protoScope.headers ctKey).map (fun _ => jsonCT) ∧
      newReceive true (jsonEncode (.vClassroom ⟨[]⟩)) (fun _ => ⟨[], false⟩) 0 =
        ⟨jsonEncode (.vClassroom ⟨[]⟩), false⟩ ∧
      drainPulls (newReceive true (jsonEncode (.vClassroom ⟨[]⟩)) (fun _ => ⟨[], false⟩)) 1 0 =
        some (jsonEncode (.vClassroom ⟨[]⟩))) :=
  ⟨by decide, by decide, by decide, by decide, by decide, by decide,
    c8_single_shot_json classroomRoutes appClassroom protoScope
      [⟨[0], true⟩, ⟨[0], false⟩] [0, 0]
      ⟨"/classroom", some .classroomT, some .statsT⟩ .classroomT .statsT
      (.vClassroom ⟨[]⟩) (fun _ => ⟨[], false⟩)
      (by decide) (by decide) (by decide) (by decide) (by decide) (by decide)⟩

/-- The grade sum of three students is their plain sum. -/
theorem sumGrades_three (s1 s2 s3 : Student) :
    sumGrades [s1, s2, s3] = s1.avg_grade + s2.avg_grade + s3.avg_grade := by
  simp [sumGrades]
  ring

/-- C1: a binary-encoded request to POST /classroom carrying a classroom
with three students makes the pipeline answer with one start event and one
final body event whose payload is a binary-encoded stats message with
numstudents 3 and grade the arithmetic mean of the three average grades,
and whose emitted content-type header is the binary media type. -/
theorem c1_end_to_end (s1 s2 s3 : Student) :
    ∃ hs pb,
      middlewareCall classroomRoutes appClassroom protoScope
          [⟨binEncode (.vClassroom ⟨[s1, s2, s3]⟩), false⟩] =
        .ok [.start 200 hs, .body pb false] ∧
      binDecodeAs .statsT pb =
        some (.vStats ⟨3, (s1.avg_grade + s2.avg_grade + s3.avg_grade) / 3⟩) ∧
      headerLast hs ctKey = some protoCT := by
  have hcl : classifyBinary protoScope = true := by decide
  have hsum : summarize_classroom ⟨[s1, s2, s3]⟩ =
      .ok ⟨3, (s1.avg_grade + s2.avg_grade + s3.avg_grade) / 3⟩ := by
    unfold summarize_classroom
    rw [if_neg (by simp)]
    norm_num [sumGrades_three]
  have happ : appClassroom (jsonifyScope protoScope)
      [⟨jsonEncode (.vClassroom ⟨[s1, s2, s3]⟩), false⟩] =
      [.start 200 [(ctKey, jsonCT),
        (clKey, decimalBytes ((jsonEncode (.vStats
          ⟨3, (s1.avg_grade + s2.avg_grade + s3.avg_grade) / 3⟩)).length))],
       .body (jsonEncode (.vStats
         ⟨3, (s1.avg_grade + s2.avg_grade + s3.avg_grade) / 3⟩)) false] := by
    simp [appClassroom, drainReq, hsum]
  have hmw : middlewareCall classroomRoutes appClassroom protoScope
      [⟨binEncode (.vClassroom ⟨[s1, s2, s3]⟩), false⟩] =
      runNewSend .statsT (appClassroom (jsonifyScope protoScope)
        [⟨jsonEncode (.vClassroom ⟨[s1, s2, s3]⟩), false⟩]) := by
    have hpath : protoScope.path = "/classroom" := rfl
    simp [middlewareCall, hcl, drainReq, findRoute, classroomRoutes, hpath]
  refine ⟨rewriteHeaders [(ctKey, jsonCT),
      (clKey, decimalBytes ((jsonEncode (.vStats
        ⟨3, (s1.avg_grade + s2.avg_grade + s3.avg_grade) / 3⟩)).length))]
      (binEncode (.vStats ⟨3, (s1.avg_grade + s2.avg_grade + s3.avg_grade) / 3⟩)),
    binEncode (.vStats ⟨3, (s1.avg_grade + s2.avg_grade + s3.avg_grade) / 3⟩),
    ?_, ?_, ?_⟩
  · rw [hmw, happ]
    simp [runNewSend, runNewSendFrom, newSendStep]
  · simp
  · have h1 : lowerBytes ctKey = ctKey := by decide
    have h2 : lowerBytes clKey = clKey := by decide
    have h3 : (clKey == ctKey) = false := by decide
    simp [rewriteHeaders, headerLast, h1, h2, h3]

/-- C1 (witness): three concrete students with grades 10, 8 and 6. -/
theorem c1_witness :
    ∃ hs pb,
      middlewareCall classroomRoutes appClassroom protoScope
          [⟨binEncode (.vClassroom ⟨[⟨strBytes "ann", 10, strBytes "d1"⟩,
            ⟨strBytes "bob", 8, strBytes "d2"⟩, ⟨strBytes "cal", 6, strBytes "d3"⟩]⟩),
            false⟩] =
        .ok [.start 200 hs, .body pb false] ∧
      binDecodeAs .statsT pb = some (.vStats ⟨3, (10 + 8 + 6) / 3⟩) ∧
      headerLast hs ctKey = some protoCT :=
  c1_end_to_end ⟨strBytes "ann", 10, strBytes "d1"⟩ ⟨strBytes "bob", 8, strBytes "d2"⟩
    ⟨strBytes "cal", 6, strBytes "d3"⟩

/-- C4 (witness): the truncated body against the concrete application. -/
theorem c4_witness :
    middlewareCall classroomRoutes appClassroom protoScope [⟨[0, 1], false⟩] =
        .error .requestDecode ∧
    isClientError .requestDecode = false :=
  c4_malformed_request appClassroom

/-- C7 (witness): the classification at a concrete binary request scope. -/
theorem c7_witness :
    classifyBinary ⟨"http", "/classroom", [(ctKey, protoCT)]⟩ = true ↔
      ("http" : String) = "http" ∧
        ([(ctKey, protoCT)] : List (List Nat × List Nat)) ≠ [] ∧
        headerLast [(ctKey, protoCT)] ctKey = some protoCT :=
  c7_classify_exact_match ⟨"http", "/classroom", [(ctKey, protoCT)]⟩
